import Mathlib

/-!
Shallow embedding of `src/file_processor.py`, a CSV field-validation engine:
per-field checks (presence, uniqueness, int/string/date/country-code type
checks), the per-field rule dispatcher, the outer-join merge of finding
tables, and the error-rate bookkeeping — together with theorems checking the
specification's claims against this embedding.

Modelling conventions:
* A scalar table value is the closed variant `Value` (null / int / float /
  str); pandas `NaN`-style missing values are `Value.null`.
* Python floats are modelled as exact rationals; `round(x, 4)` is
  round-half-to-even at 4 decimal places on the rational, and the string
  form of such a float is its shortest decimal rendering (at least one
  fractional digit), which agrees with CPython's `repr` on every value the
  program produces at the concrete inputs used below.  A Python variable
  that still holds the `int` literal `0` (the checks initialise
  `percentage: float = 0`, which does not convert) renders as `"0"`; the
  `PyNum` type keeps that int/float distinction.
* A pandas DataFrame of findings is `FTable`; the `index` key column is
  kept separately as the first component of each row, the remaining columns
  in `cols`/cell-list order.  Cells are `Option`-valued: `Option.none` is a
  null/absent entry (never `False`).
* The process-wide `problems` registry is modelled by returning the ordered
  list of `(field, message)` writes a call performs.
* Raised exceptions are modelled with `Except PyError`.
-/

namespace FileProc

inductive Value where
  | null : Value
  | int (n : ℤ) : Value
  | float (q : ℚ) : Value
  | str (s : String) : Value
deriving DecidableEq, Repr

inductive PyError where
  | keyError (k : String) : PyError
  | indexError (msg : String) : PyError
  | valueError (msg : String) : PyError
  | columnNotFound (msg : String) : PyError
deriving DecidableEq, Repr

inductive CellV where
  | boolT : CellV
  | val (v : Value) : CellV
  | ilist (l : List ℤ) : CellV
deriving DecidableEq, Repr

abbrev Cell := Option CellV

structure FTable where
  cols : List String
  rows : List (ℤ × List Cell)
deriving DecidableEq, Repr

structure DataFrame where
  cols : List String
  rows : List (ℤ × List Value)
deriving DecidableEq, Repr

/-- A field's rule set, mirroring the JSON config
`{"none": bool, "unique": bool, "type": str}`; a missing key is `Option.none`. -/
structure Validations where
  none_rule : Option Bool
  unique_rule : Option Bool
  type_rule : Option String
deriving DecidableEq, Repr

abbrev Writes := List (String × String)

instance {ε α : Type} [DecidableEq ε] [DecidableEq α] : DecidableEq (Except ε α) := fun x y =>
  match x, y with
  | Except.ok a, Except.ok b =>
    if h : a = b then isTrue (by rw [h]) else isFalse (by intro hc; cases hc; exact h rfl)
  | Except.error e, Except.error f =>
    if h : e = f then isTrue (by rw [h]) else isFalse (by intro hc; cases hc; exact h rfl)
  | Except.ok _, Except.error _ => isFalse (by intro hc; cases hc)
  | Except.error _, Except.ok _ => isFalse (by intro hc; cases hc)

def Value.isNull : Value → Bool
  | .null => true
  | _ => false

/-- `isinstance(x, int) or isinstance(x, float)` on a table value
(pandas missing values are floats but are screened by `isNull` first). -/
def Value.isIntLike : Value → Bool
  | .int _ => true
  | .float _ => true
  | _ => false

def Value.isStr : Value → Bool
  | .str _ => true
  | _ => false

def Value.isInt : Value → Bool
  | .int _ => true
  | _ => false

/-- Python's `round(n / d)` on the exact rational `n / d` (with `d`
positive): round half to even.  `f` is the floor of `n / d`; comparing the
doubled remainder `2 * (n - f * d)` with `d` decides which side of the
half-way point the value lies on. -/
def roundHalfEvenFrac (n d : ℤ) : ℤ :=
  let f := Int.fdiv n d
  let r2 := 2 * (n - f * d)
  if r2 < d then f
  else if d < r2 then f + 1
  else if f % 2 = 0 then f else f + 1

/-- Python's `round(n / d, 4)`, returned as the integer numerator of the
result over `10000` (the rounded value is `pyRound4Num n d / 10000`). -/
def pyRound4Num (n d : ℤ) : ℤ := roundHalfEvenFrac (n * 10000) d

def stripTrailingZeros (s : String) : String :=
  String.mk ((s.toList.reverse.dropWhile (fun c => c = '0')).reverse)

/-- Render a 4-decimal fraction part the way CPython's float `repr` shows it:
zero-padded to 4 digits, trailing zeros stripped, at least one digit kept. -/
def formatFrac4 (frac : ℕ) : String :=
  let s := toString frac
  let padded := String.mk (List.replicate (4 - s.length) '0') ++ s
  let stripped := stripTrailingZeros padded
  if stripped = "" then "0" else stripped

/-- `repr` of the Python float `k / 10000` (every float the program formats
is the result of `round(_, 4)`, hence an exact multiple of `1/10000`). -/
def pyFloatRepr4 (k : ℤ) : String :=
  let a : ℕ := k.natAbs
  (if k < 0 then "-" else "") ++ toString (a / 10000) ++ "." ++ formatFrac4 (a % 10000)

/-- A Python number that is either still the `int` literal `0` or a float;
the distinction matters for string interpolation (`"0"` vs `"0.0"`).
`floatN4 k` is the float of value `k / 10000` (every float the program
interpolates into a registry string is a `round(_, 4)` result). -/
inductive PyNum where
  | intN (n : ℤ) : PyNum
  | floatN4 (k : ℤ) : PyNum
deriving DecidableEq, Repr

def PyNum.toStr : PyNum → String
  | .intN n => toString n
  | .floatN4 k => pyFloatRepr4 k

/-- The string written into the `problems` registry:
`f"Error_rate: {percentage}%"`. -/
def errorRateStr (p : PyNum) : String := "Error_rate: " ++ p.toStr ++ "%"

/-- First index of `field` among the column names (Python `df[field]`
resolves to the column; missing name raises `KeyError`). -/
def findColIdx (field : String) : List String → Option ℕ
  | [] => Option.none
  | c :: cs => if c = field then some 0 else (findColIdx field cs).map (· + 1)

/-- `df[field]`: the column as a list of (row identity, value); raises
`KeyError(field)` when the column is absent. -/
def DataFrame.getCol (df : DataFrame) (field : String) :
    Except PyError (List (ℤ × Value)) :=
  match findColIdx field df.cols with
  | some i => Except.ok (df.rows.map (fun r => (r.1, r.2.getD i Value.null)))
  | Option.none => Except.error (PyError.keyError field)

/-- `s.upper()` on a column name (same character map as `String.toUpper`,
stated over the character list so that it evaluates by kernel reduction). -/
def strUpper (s : String) : String :=
  String.mk (s.data.map Char.toUpper)

/-- Split a character list on a separator (the character-level counterpart
of Python's `str.split(sep)` with every occurrence kept). -/
def splitOnChar (sep : Char) : List Char → List (List Char)
  | [] => [[]]
  | c :: cs =>
    let r := splitOnChar sep cs
    if c = sep then [] :: r
    else
      match r with
      | [] => [[c]]
      | h :: t => (c :: h) :: t

def allDigits (l : List Char) : Bool :=
  decide (0 < l.length) && l.all Char.isDigit

def digitsToNat (l : List Char) : ℕ :=
  l.foldl (fun a c => a * 10 + (c.toNat - 48)) 0

def isLeap (y : ℕ) : Bool :=
  (y % 4 == 0 && y % 100 != 0) || (y % 400 == 0)

def daysInMonth (y m : ℕ) : ℕ :=
  if m = 2 then (if isLeap y then 29 else 28)
  else if [4, 6, 9, 11].contains m then 30 else 31

/-- `pd.to_datetime(s, format="%Y-%m-%d %H:%M:%S")` succeeds: 4-digit year,
1-2 digit month/day/hour/minute/second fields, valid calendar ranges. -/
def validDateStr (s : String) : Bool :=
  match splitOnChar ' ' s.data with
  | [d, t] =>
    match splitOnChar '-' d, splitOnChar ':' t with
    | [y, mo, da], [h, mi, se] =>
      allDigits y && allDigits mo && allDigits da &&
      allDigits h && allDigits mi && allDigits se &&
      (y.length == 4) && decide (mo.length ≤ 2) && decide (da.length ≤ 2) &&
      decide (h.length ≤ 2) && decide (mi.length ≤ 2) && decide (se.length ≤ 2) &&
      decide (1 ≤ digitsToNat mo) && decide (digitsToNat mo ≤ 12) &&
      decide (1 ≤ digitsToNat da) &&
      decide (digitsToNat da ≤ daysInMonth (digitsToNat y) (digitsToNat mo)) &&
      decide (digitsToNat h ≤ 23) && decide (digitsToNat mi ≤ 59) &&
      decide (digitsToNat se ≤ 59)
    | _, _ => false
  | _ => false

/-- `pd.to_datetime(v, format=..., errors="coerce")` yields a real datetime
(not `NaT`): only a string in the fixed format parses; nulls and non-strings
coerce to `NaT`. -/
def parsesAsDatetime : Value → Bool
  | .str s => validDateStr s
  | _ => false

/-- `validate_none_fields`: flags null-valued rows; always records an error
rate (the Python local `percentage` starts as the `int` literal `0` and is
replaced by a float only when some row is null). -/
def validate_none_fields (df : DataFrame) (field : String) :
    Except PyError (FTable × Writes) := do
  let col ← df.getCol field
  let flagged := (col.filter (fun p => p.2.isNull)).map (fun p => p.1)
  let percentage : PyNum :=
    if flagged.isEmpty then PyNum.intN 0
    else PyNum.floatN4 (pyRound4Num ((flagged.length : ℤ) * 100) (col.length : ℤ))
  Except.ok
    (⟨["NONE_" ++ field ++ "_VALUE"], flagged.map (fun i => (i, [some CellV.boolT]))⟩,
     [(field, errorRateStr percentage)])

def Value.rank : Value → ℕ
  | .null => 0
  | .int _ => 1
  | .float _ => 2
  | .str _ => 3

/-- Comparison used for pandas `groupby` key ordering (ascending). -/
def Value.leB (a b : Value) : Bool :=
  match a, b with
  | .int m, .int n => decide (m ≤ n)
  | .int m, .float q => decide ((m : ℚ) ≤ q)
  | .float q, .int n => decide (q ≤ (n : ℚ))
  | .float p, .float q => decide (p ≤ q)
  | .str s, .str t => decide (s ≤ t)
  | a, b => decide (a.rank ≤ b.rank)

def insertSortedValue (a : Value) : List Value → List Value
  | [] => [a]
  | b :: bs => if Value.leB a b then a :: b :: bs else b :: insertSortedValue a bs

def sortValues : List Value → List Value
  | [] => []
  | a :: as => insertSortedValue a (sortValues as)

/-- `validate_unique_fields`: marks every row whose value occurs more than
once (`duplicated(keep=False)`), groups the flagged rows by value (pandas
`groupby` sorts keys ascending and drops null keys), keeps each group's
first row identity as the primary row and pops it off the `repeated_indexes`
list; always records an error rate (`int` literal `0` when no duplicates). -/
def validate_unique_fields (df : DataFrame) (field : String) :
    Except PyError (FTable × Writes) := do
  let col ← df.getCol field
  let vals := col.map (fun p => p.2)
  let dups := col.filter (fun p => decide (1 < vals.count p.2))
  let repCol := "Repeat_" ++ field
  if dups.isEmpty then
    Except.ok (⟨[repCol, "repeated_indexes"], []⟩,
      [(field, errorRateStr (PyNum.intN 0))])
  else
    let keys := sortValues (((dups.map (fun p => p.2)).filter (fun v => !v.isNull)).dedup)
    let rows := keys.filterMap (fun k =>
      match (dups.filter (fun p => decide (p.2 = k))).map (fun p => p.1) with
      | [] => Option.none
      | i :: rest => some (i, [some (CellV.val k), some (CellV.ilist rest)]))
    let percentage := pyRound4Num ((dups.length : ℤ) * 100) (col.length : ℤ)
    Except.ok (⟨[repCol, "repeated_indexes"], rows⟩,
      [(field, errorRateStr (PyNum.floatN4 percentage))])

/-- `validate_int_fields`: flags rows whose value is neither int nor float
and not null; records an error rate only when at least one row is flagged. -/
def validate_int_fields (df : DataFrame) (field : String) :
    Except PyError (FTable × Writes) := do
  let col ← df.getCol field
  let flagged := (col.filter (fun p => !p.2.isIntLike && !p.2.isNull)).map (fun p => p.1)
  let t : FTable :=
    ⟨["NULL_" ++ field ++ "_INT"], flagged.map (fun i => (i, [some CellV.boolT]))⟩
  if flagged.isEmpty then Except.ok (t, [])
  else
    Except.ok (t,
      [(field, errorRateStr (PyNum.floatN4
        (pyRound4Num ((flagged.length : ℤ) * 100) (col.length : ℤ))))])

/-- `validate_string_fields`: flags rows whose value is not a string and not
null; records an error rate only when at least one row is flagged. -/
def validate_string_fields (df : DataFrame) (field : String) :
    Except PyError (FTable × Writes) := do
  let col ← df.getCol field
  let flagged := (col.filter (fun p => !p.2.isStr && !p.2.isNull)).map (fun p => p.1)
  let t : FTable :=
    ⟨["NULL_" ++ field ++ "_STRING"], flagged.map (fun i => (i, [some CellV.boolT]))⟩
  if flagged.isEmpty then Except.ok (t, [])
  else
    Except.ok (t,
      [(field, errorRateStr (PyNum.floatN4
        (pyRound4Num ((flagged.length : ℤ) * 100) (col.length : ℤ))))])

/-- `validate_date_format`: flags rows whose value does not parse under the
fixed format (nulls and non-strings coerce to `NaT`, hence are flagged).
Both source branches yield the same table shape, and neither branch calls
`set_percentage_error`, so the list of registry writes is `[]`. -/
def validate_date_format (df : DataFrame) (field : String) :
    Except PyError (FTable × Writes) := do
  let col ← df.getCol field
  let flagged := (col.filter (fun p => !(parsesAsDatetime p.2))).map (fun p => p.1)
  Except.ok
    (⟨["INVALID_" ++ field ++ "_FORMAT"], flagged.map (fun i => (i, [some CellV.boolT]))⟩,
     [])

def country_list : List String :=
  ["AR", "BR", "CL", "CO", "CR", "CU", "DO", "EC", "SV", "GT", "HT", "HN", "JM",
   "MX", "NI", "PA", "PY", "PE", "PR", "UY", "VE"]

/-- `Series.isin(country_list)` on one value. -/
def Value.isinStr (v : Value) (l : List String) : Bool :=
  match v with
  | .str s => l.contains s
  | _ => false

def inBoundsCell (n : ℕ) : Value → Bool
  | .int k => decide (-(n : ℤ) ≤ k ∧ k < (n : ℤ))
  | _ => true

/-- The exception raised by `df.index[non_matching_values]` when
`non_matching_values` is a non-empty DataFrame: numpy coerces the frame to a
2-D array of its values and fancy-indexes the index array with it.
Non-integer cells are rejected outright; all-integer in-range cells produce
a 2-D result which the subsequent `pd.DataFrame({'index': ...})`
construction rejects as not 1-dimensional.  Every path raises. -/
def indexFancy (idx : List ℤ) (matrix : List (List Value)) : PyError :=
  if matrix.all (fun row => row.all Value.isInt) then
    if matrix.all (fun row => row.all (inBoundsCell idx.length)) then
      PyError.valueError "Data must be 1-dimensional"
    else PyError.indexError "index is out of bounds"
  else PyError.indexError "arrays used as indices must be of integer or boolean type"

/-- `validate_country_codes`: selects the rows whose value is non-null and
not in the hardcoded list (`df.loc[...]`, a sub-DataFrame).  When no such
row exists it returns the empty finding table and writes nothing; when one
exists, the source then evaluates `df.index[non_matching_values]`, which
raises (see `indexFancy`), so the non-empty branch never returns a table. -/
def validate_country_codes (df : DataFrame) (field : String) :
    Except PyError (FTable × Writes) := do
  let col ← df.getCol field
  let nonMatching := (df.rows.zip col).filter
    (fun rc => !(rc.2.2.isinStr country_list) && !rc.2.2.isNull)
  if nonMatching.isEmpty then
    Except.ok (⟨["NOT_IN_" ++ field ++ "_LIST"], []⟩, [])
  else
    Except.error (indexFancy (df.rows.map (fun r => r.1)) (nonMatching.map (fun rc => rc.1.2)))

/-- `calculate_percentage_error(original, merge)`: compares the two row
counts; equal counts or an empty original give `"0%"`, otherwise the
shrinkage percentage rounded to 4 places with a trailing `%`. -/
def calculate_percentage_error (original : DataFrame) (merge : FTable) : String :=
  let len_ori := original.rows.length
  let len_merge := merge.rows.length
  if len_ori = len_merge then "0%"
  else if len_ori = 0 then "0%"
  else pyFloatRepr4 (pyRound4Num (((len_ori : ℤ) - (len_merge : ℤ)) * 100) (len_ori : ℤ)) ++ "%"

/-- One conditional step of the dispatcher: when the rule is selected, run
the check and wrap its finding table as a one-element list. -/
def runIf (b : Bool) (c : Except PyError (FTable × Writes)) :
    Except PyError (List FTable × Writes) :=
  if b then
    match c with
    | Except.ok x => Except.ok ([x.1], x.2)
    | Except.error e => Except.error e
  else Except.ok ([], [])

/-- The `try/except KeyError` wrapper of `validate_field_dic`: a `KeyError`
becomes `ColumnNotFoundError` naming the field; other exceptions propagate. -/
def mapColErr (field : String) (x : Except PyError (List FTable × Writes)) :
    Except PyError (List FTable × Writes) :=
  match x with
  | Except.error (PyError.keyError _) =>
      Except.error (PyError.columnNotFound
        ("The DataFrame does not have the expected column: " ++ field))
  | other => other

/-- `validate_field_dic`: runs the selected checks in the source's fixed
order (presence, uniqueness, then the `type`-selected checks), collecting
their finding tables; a `KeyError` from any check aborts the whole dispatch
and is re-raised as `ColumnNotFoundError`. -/
def validate_field_dic (df : DataFrame) (field : String) (v : Validations) :
    Except PyError (List FTable × Writes) :=
  mapColErr field (do
    let a ← runIf (decide (v.none_rule = some true)) (validate_none_fields df field)
    let b ← runIf (decide (v.unique_rule = some true)) (validate_unique_fields df field)
    let c ← runIf (decide (v.type_rule = some "int")) (validate_int_fields df field)
    let d ← runIf (decide (v.type_rule = some "string")) (validate_string_fields df field)
    let e ← runIf (decide (v.type_rule = some "date")) (validate_date_format df field)
    let f ← runIf (decide (v.type_rule = some "country_code")) (validate_country_codes df field)
    Except.ok (a.1 ++ b.1 ++ c.1 ++ d.1 ++ e.1 ++ f.1,
               a.2 ++ b.2 ++ c.2 ++ d.2 ++ e.2 ++ f.2))

/-- The type check selected by the `type` value of a rule set (the four
mutually exclusive `if validations[type] == ...` arms of the source). -/
def typeCheckOf (t : String) (df : DataFrame) (field : String) :
    Except PyError (FTable × Writes) :=
  if t = "int" then validate_int_fields df field
  else if t = "string" then validate_string_fields df field
  else if t = "date" then validate_date_format df field
  else if t = "country_code" then validate_country_codes df field
  else Except.ok (⟨[], []⟩, [])

def nullCells (cols : List String) : List Cell :=
  cols.map (fun _ => (Option.none : Cell))

def FTable.keys (t : FTable) : List ℤ := t.rows.map (fun p => p.1)

/-- Key set of a full outer join: the union of both key sets, sorted
ascending (pandas sorts the join keys of an outer merge). -/
def mergeKeys (left right : FTable) : List ℤ :=
  List.insertionSort (· ≤ ·)
    ((left.rows.map (fun p => p.1) ++ right.rows.map (fun p => p.1)).dedup)

/-- The merged rows produced for one join key: the matching rows of each
side (or a single null-filled row when a side does not contain the key),
combined as a product, as pandas does for duplicate keys. -/
def mergeRows (left right : FTable) (k : ℤ) : List (ℤ × List Cell) :=
  let ls := (left.rows.filter (fun p => decide (p.1 = k))).map (fun p => p.2)
  let rs := (right.rows.filter (fun p => decide (p.1 = k))).map (fun p => p.2)
  let ls' := if ls.isEmpty then [nullCells left.cols] else ls
  let rs' := if rs.isEmpty then [nullCells right.cols] else rs
  ls'.flatMap (fun a => rs'.map (fun b => (k, a ++ b)))

/-- `pd.merge(left, right, on=['index'], how='outer')`: full outer join on
the row-identity key.  A row identity absent from one side gets null-filled
cells for that side's columns.  (The finding tables merged by this program
have pairwise distinct non-key column names, so no `_x`/`_y` suffixing
arises.) -/
def mergeOuter (left right : FTable) : FTable :=
  { cols := left.cols ++ right.cols
  , rows := (mergeKeys left right).flatMap (mergeRows left right) }

/-- Dispatch every configured field in order, flattening the per-field
finding-table lists (`list_df.extend(...)`) and the registry writes. -/
def dispatchAll (df : DataFrame) : List (String × Validations) →
    Except PyError (List FTable × Writes)
  | [] => Except.ok ([], [])
  | (field, v) :: rest => do
    let a ← validate_field_dic df field v
    let b ← dispatchAll df rest
    Except.ok (a.1 ++ b.1, a.2 ++ b.2)

/-- `validate_fields_from_json`: dispatches every field of the config's
`data_valid` mapping, folds the collected finding tables with the outer
join (an empty list yields `pd.DataFrame()`), and upper-cases the column
names (`merged_df.columns.str.upper()`, modelled as a total upper-casing of
each name as pandas performs on the report's object-dtype column index). -/
def validate_fields_from_json (df : DataFrame) (data_valid : List (String × Validations)) :
    Except PyError (FTable × Writes) := do
  let r ← dispatchAll df data_valid
  let merged : FTable :=
    match r.1 with
    | [] => ⟨[], []⟩
    | t :: ts => ts.foldl mergeOuter t
  Except.ok (⟨merged.cols.map strUpper, merged.rows⟩, r.2)

/-- The report-percentage rule as the specification words it: if the two
counts are equal, or if the original count is zero, return `"0%"`;
otherwise return `round(((original - merged) / original) * 100, 4)`
formatted with a trailing `%`. -/
def percentage_error_spec (len_ori len_merge : ℕ) : String :=
  if len_ori = len_merge ∨ len_ori = 0 then "0%"
  else
    pyFloatRepr4 (pyRound4Num (((len_ori : ℤ) - (len_merge : ℤ)) * 100) (len_ori : ℤ)) ++ "%"

/-- A rule set that selects none of the six checks of the dispatcher. -/
def selectsNoChecks (v : Validations) : Prop :=
  v.none_rule ≠ some true ∧ v.unique_rule ≠ some true ∧
  v.type_rule ≠ some "int" ∧ v.type_rule ≠ some "string" ∧
  v.type_rule ≠ some "date" ∧ v.type_rule ≠ some "country_code"

instance (v : Validations) : Decidable (selectsNoChecks v) := by
  unfold selectsNoChecks; infer_instance

/-- The table of the spec's country-code scenario: field `code`, values
`["AR", "ZZ", null]`, row identities 2, 3, 4. -/
def dfC1 : DataFrame :=
  ⟨["code"], [(2, [Value.str "AR"]), (3, [Value.str "ZZ"]), (4, [Value.null])]⟩

/-- A one-row table with a non-null value in field `f`. -/
def dfC3 : DataFrame := ⟨["f"], [(2, [Value.str "x"])]⟩

/-- The table of the spec's uniqueness scenario: rows
`{id: 2, email: "a@x.com"}, {id: 3, email: "a@x.com"}, {id: 4, email: "b@x.com"}`. -/
def dfC4 : DataFrame :=
  ⟨["id", "email"],
   [(2, [Value.int 2, Value.str "a@x.com"]),
    (3, [Value.int 3, Value.str "a@x.com"]),
    (4, [Value.int 4, Value.str "b@x.com"])]⟩

/-- A one-row table whose only value in field `f` is null. -/
def dfNull : DataFrame := ⟨["f"], [(2, [Value.null])]⟩

/-- Number of rows of a finding table carrying the row identity `k`. -/
def keyCount (rows : List (ℤ × List Cell)) (k : ℤ) : ℕ :=
  (rows.filter (fun p => decide (p.1 = k))).length

/-- Finding table with the single key 2 (disjoint-merge witness, left). -/
def ftA : FTable := ⟨["A"], [(2, [some CellV.boolT])]⟩

/-- Finding table with the single key 3 (disjoint-merge witness, right). -/
def ftB : FTable := ⟨["B"], [(3, [some CellV.boolT])]⟩

theorem exbind_ok {α β : Type} (a : α) (f : α → Except PyError β) :
    (Except.ok a >>= f : Except PyError β) = f a := rfl

theorem exbind_err {α β : Type} (e : PyError) (f : α → Except PyError β) :
    ((Except.error e : Except PyError α) >>= f) = Except.error e := rfl

theorem findColIdx_eq_none {field : String} :
    ∀ {cols : List String}, field ∉ cols → findColIdx field cols = Option.none := by
  intro cols
  induction cols with
  | nil => intro _; rfl
  | cons c cs ih =>
    intro h
    have hc : ¬c = field := fun hcf => h (hcf ▸ List.mem_cons_self c cs)
    have hcs : field ∉ cs := fun hm => h (List.mem_cons_of_mem c hm)
    simp [findColIdx, hc, ih hcs]

theorem getCol_err (df : DataFrame) (field : String) (h : field ∉ df.cols) :
    df.getCol field = Except.error (PyError.keyError field) := by
  simp [DataFrame.getCol, findColIdx_eq_none h]

theorem validate_none_fields_err (df : DataFrame) (field : String) (h : field ∉ df.cols) :
    validate_none_fields df field = Except.error (PyError.keyError field) := by
  simp [validate_none_fields, getCol_err df field h, exbind_err]

theorem validate_unique_fields_err (df : DataFrame) (field : String) (h : field ∉ df.cols) :
    validate_unique_fields df field = Except.error (PyError.keyError field) := by
  simp [validate_unique_fields, getCol_err df field h, exbind_err]

theorem validate_int_fields_err (df : DataFrame) (field : String) (h : field ∉ df.cols) :
    validate_int_fields df field = Except.error (PyError.keyError field) := by
  simp [validate_int_fields, getCol_err df field h, exbind_err]

theorem validate_string_fields_err (df : DataFrame) (field : String) (h : field ∉ df.cols) :
    validate_string_fields df field = Except.error (PyError.keyError field) := by
  simp [validate_string_fields, getCol_err df field h, exbind_err]

theorem validate_date_format_err (df : DataFrame) (field : String) (h : field ∉ df.cols) :
    validate_date_format df field = Except.error (PyError.keyError field) := by
  simp [validate_date_format, getCol_err df field h, exbind_err]

theorem validate_country_codes_err (df : DataFrame) (field : String) (h : field ∉ df.cols) :
    validate_country_codes df field = Except.error (PyError.keyError field) := by
  simp [validate_country_codes, getCol_err df field h, exbind_err]

theorem isNull_eq_false : ∀ {v : Value}, v ≠ Value.null → v.isNull = false
  | .null, h => absurd rfl h
  | .int _, _ => rfl
  | .float _, _ => rfl
  | .str _, _ => rfl

/-- C1: on the table with `code` values `["AR", "ZZ", null]` (row identities
2, 3, 4), the country-code check does not produce a finding table flagging
the `"ZZ"` row: evaluating `df.index[non_matching_values]` with the
sub-DataFrame of non-matching rows raises an `IndexError`, so the whole
check raises instead of returning. -/
theorem c1_country_code_check_raises :
    validate_country_codes dfC1 "code" =
      Except.error (PyError.indexError
        "arrays used as indices must be of integer or boolean type") := by
  decide

/-- C3 counterexample: on a one-row table with no nulls in field `f`, the
presence check does return the empty finding table, but the registry write
is the string `"Error_rate: 0%"` (the Python local `percentage` is still the
`int` 0), which differs from the claimed `"Error_rate: 0.0%"`. -/
theorem c3_zero_rate_counterexample :
    validate_none_fields dfC3 "f" =
      Except.ok (⟨["NONE_f_VALUE"], []⟩, [("f", "Error_rate: 0%")]) ∧
    ("Error_rate: 0%" : String) ≠ "Error_rate: 0.0%" := by
  constructor
  · decide
  · decide

/-- C3 (amended): for every table with at least one row and no null values
in the checked field, the presence check returns an empty finding table
with column `NONE_<FIELD>_VALUE` and writes exactly `"Error_rate: 0%"`
into the registry under the field name. -/
theorem c3_presence_no_nulls_amended (df : DataFrame) (field : String)
    (col : List (ℤ × Value)) (hcol : df.getCol field = Except.ok col)
    (_hne : 0 < col.length) (hnn : ∀ p ∈ col, p.2 ≠ Value.null) :
    validate_none_fields df field =
      Except.ok (⟨["NONE_" ++ field ++ "_VALUE"], []⟩, [(field, "Error_rate: 0%")]) := by
  have hflag : col.filter (fun p => p.2.isNull) = [] := by
    rw [List.filter_eq_nil_iff]
    intro p hp
    simp [isNull_eq_false (hnn p hp)]
  simp only [validate_none_fields, hcol, exbind_ok, hflag]
  have hstr : errorRateStr (PyNum.intN 0) = "Error_rate: 0%" := by decide
  simp [hstr]

theorem c3_presence_no_nulls_amended_witness :
    validate_none_fields dfC3 "f" =
      Except.ok (⟨["NONE_" ++ "f" ++ "_VALUE"], []⟩, [("f", "Error_rate: 0%")]) :=
  c3_presence_no_nulls_amended dfC3 "f" [(2, Value.str "x")]
    (by decide) (by decide) (by decide)

/-- C4: on the spec's uniqueness scenario (emails `a@x.com`, `a@x.com`,
`b@x.com` at row identities 2, 3, 4, config `{"email": {"unique": true}}`),
the entry point returns a one-row report keyed by identity 2 whose
`REPEAT_EMAIL` column holds `"a@x.com"` and whose `REPEATED_INDEXES` list
is `[3]`, and the registry write for `email` is `"Error_rate: 66.6667%"`. -/
theorem c4_unique_scenario :
    validate_fields_from_json dfC4 [("email", ⟨Option.none, some true, Option.none⟩)] =
      Except.ok
        (⟨["REPEAT_EMAIL", "REPEATED_INDEXES"],
          [(2, [some (CellV.val (Value.str "a@x.com")), some (CellV.ilist [3])])]⟩,
         [("email", "Error_rate: 66.6667%")]) := by
  decide

/-- C5: for all original and merged row counts, the report percentage
calculator follows the spec's rule: `"0%"` when the counts are equal or the
original count is zero, otherwise `round(((original - merged) / original) *
100, 4)` with a trailing `%`. -/
theorem c5_percentage_error_matches_spec (original : DataFrame) (merge : FTable) :
    calculate_percentage_error original merge =
      percentage_error_spec original.rows.length merge.rows.length := by
  unfold calculate_percentage_error percentage_error_spec
  by_cases h1 : original.rows.length = merge.rows.length <;>
    by_cases h2 : original.rows.length = 0 <;>
      simp [h1, h2]

/-- C9: the date-format check never writes to the error-rate registry:
whenever it returns, its list of registry writes is empty. -/
theorem c9_date_check_writes_nothing (df : DataFrame) (field : String)
    (r : FTable × Writes) (h : validate_date_format df field = Except.ok r) :
    r.2 = [] := by
  cases hc : df.getCol field with
  | error e => rw [validate_date_format, hc, exbind_err] at h; exact absurd h (by simp)
  | ok col =>
    rw [validate_date_format, hc, exbind_ok] at h
    cases h
    rfl

theorem c9_date_check_writes_nothing_witness :
    ((⟨["INVALID_" ++ "f" ++ "_FORMAT"], [(2, [some CellV.boolT])]⟩, ([] : Writes)) :
      FTable × Writes).2 = [] :=
  c9_date_check_writes_nothing dfC3 "f"
    (⟨["INVALID_" ++ "f" ++ "_FORMAT"], [(2, [some CellV.boolT])]⟩, ([] : Writes))
    (by decide)

/-- C2: for every table and every configuration whose per-field rule sets
select no checks, the validation entry point returns the empty report (no
rows, no columns) and performs no registry writes, without raising. -/
theorem c2_no_checks_empty_report (df : DataFrame) (config : List (String × Validations))
    (h : ∀ p ∈ config, selectsNoChecks p.2) :
    validate_fields_from_json df config = Except.ok (⟨[], []⟩, []) := by
  have hd : dispatchAll df config = Except.ok ([], []) := by
    induction config with
    | nil => rfl
    | cons p rest ih =>
      obtain ⟨h1, h2, h3, h4, h5, h6⟩ := h p (List.mem_cons_self p rest)
      have c1f := decide_eq_false h1
      have c2f := decide_eq_false h2
      have c3f := decide_eq_false h3
      have c4f := decide_eq_false h4
      have c5f := decide_eq_false h5
      have c6f := decide_eq_false h6
      have hfield : validate_field_dic df p.1 p.2 = Except.ok ([], []) := by
        simp [validate_field_dic, runIf, mapColErr, c1f, c2f, c3f, c4f, c5f, c6f,
          exbind_ok]
      have ih' := ih (fun q hq => h q (List.mem_cons_of_mem p hq))
      simp [dispatchAll, hfield, ih', exbind_ok]
  simp [validate_fields_from_json, hd, exbind_ok]

theorem c2_no_checks_empty_report_witness :
    validate_fields_from_json dfC3
      [("f", ⟨some false, Option.none, some "bogus"⟩)] = Except.ok (⟨[], []⟩, []) :=
  c2_no_checks_empty_report dfC3 [("f", ⟨some false, Option.none, some "bogus"⟩)]
    (by decide)

/-- C6: dispatching any configured check on a field that is not a column of
the table yields the `ColumnNotFound`-kind error whose message names the
missing field, and no partial list of finding tables is returned. -/
theorem c6_missing_column_raises (df : DataFrame) (field : String) (v : Validations)
    (hcol : field ∉ df.cols)
    (hsel : v.none_rule = some true ∨ v.unique_rule = some true ∨
      v.type_rule = some "int" ∨ v.type_rule = some "string" ∨
      v.type_rule = some "date" ∨ v.type_rule = some "country_code") :
    validate_field_dic df field v =
      Except.error (PyError.columnNotFound
        ("The DataFrame does not have the expected column: " ++ field)) := by
  have e1 := validate_none_fields_err df field hcol
  have e2 := validate_unique_fields_err df field hcol
  have e3 := validate_int_fields_err df field hcol
  have e4 := validate_string_fields_err df field hcol
  have e5 := validate_date_format_err df field hcol
  have e6 := validate_country_codes_err df field hcol
  by_cases h1 : v.none_rule = some true
  · have c1t := decide_eq_true h1
    simp [validate_field_dic, runIf, c1t, e1, mapColErr, exbind_err]
  · have c1f := decide_eq_false h1
    by_cases h2 : v.unique_rule = some true
    · have c2t := decide_eq_true h2
      simp [validate_field_dic, runIf, c1f, c2t, e2, mapColErr, exbind_ok, exbind_err]
    · have c2f := decide_eq_false h2
      rcases hsel with h | h | h | h | h | h
      · exact absurd h h1
      · exact absurd h h2
      · have c3t := decide_eq_true h
        simp [validate_field_dic, runIf, c1f, c2f, c3t, e3, mapColErr,
          exbind_ok, exbind_err]
      · have c3f : decide (v.type_rule = some "int") = false := by rw [h]; decide
        have c4t := decide_eq_true h
        simp [validate_field_dic, runIf, c1f, c2f, c3f, c4t, e4, mapColErr,
          exbind_ok, exbind_err]
      · have c3f : decide (v.type_rule = some "int") = false := by rw [h]; decide
        have c4f : decide (v.type_rule = some "string") = false := by rw [h]; decide
        have c5t := decide_eq_true h
        simp [validate_field_dic, runIf, c1f, c2f, c3f, c4f, c5t, e5, mapColErr,
          exbind_ok, exbind_err]
      · have c3f : decide (v.type_rule = some "int") = false := by rw [h]; decide
        have c4f : decide (v.type_rule = some "string") = false := by rw [h]; decide
        have c5f : decide (v.type_rule = some "date") = false := by rw [h]; decide
        have c6t := decide_eq_true h
        simp [validate_field_dic, runIf, c1f, c2f, c3f, c4f, c5f, c6t, e6, mapColErr,
          exbind_ok, exbind_err]

theorem c6_missing_column_raises_witness :
    validate_field_dic ⟨["a"], [(2, [Value.int 1])]⟩ "b"
      ⟨some true, Option.none, Option.none⟩ =
      Except.error (PyError.columnNotFound
        ("The DataFrame does not have the expected column: " ++ "b")) :=
  c6_missing_column_raises ⟨["a"], [(2, [Value.int 1])]⟩ "b"
    ⟨some true, Option.none, Option.none⟩ (by decide) (Or.inl rfl)

/-- C7: for a field whose rule set enables presence, uniqueness and a
recognised `value-type` rule, whenever the dispatcher returns it returns
exactly the three finding tables of those checks, in the fixed order
presence first, uniqueness second, then the selected type check, with the
registry writes concatenated in the same order. -/
theorem c7_dispatch_order (df : DataFrame) (field : String) (v : Validations) (t : String)
    (h1 : v.none_rule = some true) (h2 : v.unique_rule = some true)
    (h3 : v.type_rule = some t)
    (ht : t = "int" ∨ t = "string" ∨ t = "date" ∨ t = "country_code")
    (L : List FTable) (W : Writes)
    (hok : validate_field_dic df field v = Except.ok (L, W)) :
    ∃ n u c, validate_none_fields df field = Except.ok n ∧
      validate_unique_fields df field = Except.ok u ∧
      typeCheckOf t df field = Except.ok c ∧
      L = [n.1, u.1, c.1] ∧ W = n.2 ++ u.2 ++ c.2 := by
  have c1t := decide_eq_true h1
  have c2t := decide_eq_true h2
  rcases hn : validate_none_fields df field with e | n
  · rw [validate_field_dic] at hok
    simp only [runIf, c1t, hn, exbind_err, if_true] at hok
    cases e <;> simp [mapColErr] at hok
  rcases hu : validate_unique_fields df field with e | u
  · rw [validate_field_dic] at hok
    simp only [runIf, c1t, c2t, hn, hu, exbind_ok, exbind_err, if_true] at hok
    cases e <;> simp [mapColErr] at hok
  rcases ht with ht | ht | ht | ht
  all_goals subst ht
  · have c3t : decide (v.type_rule = some "int") = true := decide_eq_true h3
    have c4f : decide (v.type_rule = some "string") = false := by rw [h3]; decide
    have c5f : decide (v.type_rule = some "date") = false := by rw [h3]; decide
    have c6f : decide (v.type_rule = some "country_code") = false := by rw [h3]; decide
    rcases hc : validate_int_fields df field with e | c
    · rw [validate_field_dic] at hok
      simp only [runIf, c1t, c2t, c3t, hn, hu, hc, exbind_ok, exbind_err, if_true] at hok
      cases e <;> simp [mapColErr] at hok
    · rw [validate_field_dic] at hok
      simp only [runIf, c1t, c2t, c3t, c4f, c5f, c6f, hn, hu, hc, mapColErr,
        exbind_ok, if_true, if_false, Bool.false_eq_true, ite_false, ite_true] at hok
      refine ⟨n, u, c, rfl, rfl, by simp [typeCheckOf, hc], ?_, ?_⟩ <;>
        · simp only [Except.ok.injEq, Prod.mk.injEq] at hok
          simp [← hok.1, ← hok.2]
  · have c3f : decide (v.type_rule = some "int") = false := by rw [h3]; decide
    have c4t : decide (v.type_rule = some "string") = true := decide_eq_true h3
    have c5f : decide (v.type_rule = some "date") = false := by rw [h3]; decide
    have c6f : decide (v.type_rule = some "country_code") = false := by rw [h3]; decide
    rcases hc : validate_string_fields df field with e | c
    · rw [validate_field_dic] at hok
      simp only [runIf, c1t, c2t, c3f, c4t, hn, hu, hc, exbind_ok, exbind_err,
        if_true, if_false, Bool.false_eq_true, ite_false, ite_true] at hok
      cases e <;> simp [mapColErr] at hok
    · rw [validate_field_dic] at hok
      simp only [runIf, c1t, c2t, c3f, c4t, c5f, c6f, hn, hu, hc, mapColErr,
        exbind_ok, if_true, if_false, Bool.false_eq_true, ite_false, ite_true] at hok
      refine ⟨n, u, c, rfl, rfl, by simp [typeCheckOf, hc], ?_, ?_⟩ <;>
        · simp only [Except.ok.injEq, Prod.mk.injEq] at hok
          simp [← hok.1, ← hok.2]
  · have c3f : decide (v.type_rule = some "int") = false := by rw [h3]; decide
    have c4f : decide (v.type_rule = some "string") = false := by rw [h3]; decide
    have c5t : decide (v.type_rule = some "date") = true := decide_eq_true h3
    have c6f : decide (v.type_rule = some "country_code") = false := by rw [h3]; decide
    rcases hc : validate_date_format df field with e | c
    · rw [validate_field_dic] at hok
      simp only [runIf, c1t, c2t, c3f, c4f, c5t, hn, hu, hc, exbind_ok, exbind_err,
        if_true, if_false, Bool.false_eq_true, ite_false, ite_true] at hok
      cases e <;> simp [mapColErr] at hok
    · rw [validate_field_dic] at hok
      simp only [runIf, c1t, c2t, c3f, c4f, c5t, c6f, hn, hu, hc, mapColErr,
        exbind_ok, if_true, if_false, Bool.false_eq_true, ite_false, ite_true] at hok
      refine ⟨n, u, c, rfl, rfl, by simp [typeCheckOf, hc], ?_, ?_⟩ <;>
        · simp only [Except.ok.injEq, Prod.mk.injEq] at hok
          simp [← hok.1, ← hok.2]
  · have c3f : decide (v.type_rule = some "int") = false := by rw [h3]; decide
    have c4f : decide (v.type_rule = some "string") = false := by rw [h3]; decide
    have c5f : decide (v.type_rule = some "date") = false := by rw [h3]; decide
    have c6t : decide (v.type_rule = some "country_code") = true := decide_eq_true h3
    rcases hc : validate_country_codes df field with e | c
    · rw [validate_field_dic] at hok
      simp only [runIf, c1t, c2t, c3f, c4f, c5f, c6t, hn, hu, hc, exbind_ok, exbind_err,
        if_true, if_false, Bool.false_eq_true, ite_false, ite_true] at hok
      cases e <;> simp [mapColErr] at hok
    · rw [validate_field_dic] at hok
      simp only [runIf, c1t, c2t, c3f, c4f, c5f, c6t, hn, hu, hc, mapColErr,
        exbind_ok, if_true, if_false, Bool.false_eq_true, ite_false, ite_true] at hok
      refine ⟨n, u, c, rfl, rfl, by simp [typeCheckOf, hc], ?_, ?_⟩ <;>
        · simp only [Except.ok.injEq, Prod.mk.injEq] at hok
          simp [← hok.1, ← hok.2]

theorem c7_dispatch_order_witness :
    ∃ n u c,
      validate_none_fields ⟨["a"], [(2, [Value.str "x"])]⟩ "a" = Except.ok n ∧
      validate_unique_fields ⟨["a"], [(2, [Value.str "x"])]⟩ "a" = Except.ok u ∧
      typeCheckOf "string" ⟨["a"], [(2, [Value.str "x"])]⟩ "a" = Except.ok c ∧
      ([⟨["NONE_a_VALUE"], []⟩, ⟨["Repeat_a", "repeated_indexes"], []⟩,
        ⟨["NULL_a_STRING"], []⟩] : List FTable) = [n.1, u.1, c.1] ∧
      ([("a", "Error_rate: 0%"), ("a", "Error_rate: 0%")] : Writes) = n.2 ++ u.2 ++ c.2 :=
  c7_dispatch_order ⟨["a"], [(2, [Value.str "x"])]⟩ "a"
    ⟨some true, some true, some "string"⟩ "string" rfl rfl rfl (Or.inr (Or.inl rfl))
    [⟨["NONE_a_VALUE"], []⟩, ⟨["Repeat_a", "repeated_indexes"], []⟩,
      ⟨["NULL_a_STRING"], []⟩]
    [("a", "Error_rate: 0%"), ("a", "Error_rate: 0%")]
    (by decide)

theorem keys_mk_map (cols : List String) (l : List ℤ) :
    (FTable.mk cols (l.map (fun j => (j, [some CellV.boolT])))).keys = l := by
  simp [FTable.keys, List.map_map, Function.comp_def]

theorem validate_date_format_ok (df : DataFrame) (field : String)
    (col : List (ℤ × Value)) (hcol : df.getCol field = Except.ok col) :
    validate_date_format df field =
      Except.ok (⟨["INVALID_" ++ field ++ "_FORMAT"],
        ((col.filter (fun p => !(parsesAsDatetime p.2))).map (fun p => p.1)).map
          (fun j => (j, [some CellV.boolT]))⟩, []) := by
  rw [validate_date_format, hcol, exbind_ok]

theorem validate_int_fields_ok (df : DataFrame) (field : String)
    (col : List (ℤ × Value)) (hcol : df.getCol field = Except.ok col) :
    ∃ w, validate_int_fields df field =
      Except.ok (⟨["NULL_" ++ field ++ "_INT"],
        ((col.filter (fun p => !p.2.isIntLike && !p.2.isNull)).map (fun p => p.1)).map
          (fun j => (j, [some CellV.boolT]))⟩, w) := by
  rw [validate_int_fields, hcol, exbind_ok]
  by_cases he :
      ((col.filter (fun p => !p.2.isIntLike && !p.2.isNull)).map (fun p => p.1)).isEmpty
  · exact ⟨[], by rw [if_pos he]⟩
  · exact ⟨_, by rw [if_neg he]⟩

theorem validate_string_fields_ok (df : DataFrame) (field : String)
    (col : List (ℤ × Value)) (hcol : df.getCol field = Except.ok col) :
    ∃ w, validate_string_fields df field =
      Except.ok (⟨["NULL_" ++ field ++ "_STRING"],
        ((col.filter (fun p => !p.2.isStr && !p.2.isNull)).map (fun p => p.1)).map
          (fun j => (j, [some CellV.boolT]))⟩, w) := by
  rw [validate_string_fields, hcol, exbind_ok]
  by_cases he :
      ((col.filter (fun p => !p.2.isStr && !p.2.isNull)).map (fun p => p.1)).isEmpty
  · exact ⟨[], by rw [if_pos he]⟩
  · exact ⟨_, by rw [if_neg he]⟩

/-- C10: for every table and field, a row whose value is null is flagged by
the date-format check (null does not pass it), while the integer-type,
string-type and country-code checks do not flag that row (null passes). -/
theorem c10_date_check_flags_null (df : DataFrame) (field : String)
    (col : List (ℤ × Value)) (i : ℤ)
    (hcol : df.getCol field = Except.ok col)
    (hmem : (i, Value.null) ∈ col)
    (hall : ∀ p ∈ col, p.1 = i → p.2 = Value.null) :
    (∃ r, validate_date_format df field = Except.ok r ∧ i ∈ r.1.keys) ∧
    (∃ r, validate_int_fields df field = Except.ok r ∧ i ∉ r.1.keys) ∧
    (∃ r, validate_string_fields df field = Except.ok r ∧ i ∉ r.1.keys) ∧
    (∀ r, validate_country_codes df field = Except.ok r → i ∉ r.1.keys) := by
  refine ⟨?_, ?_, ?_, ?_⟩
  · refine ⟨_, validate_date_format_ok df field col hcol, ?_⟩
    rw [keys_mk_map]
    rw [List.mem_map]
    refine ⟨(i, Value.null), ?_, rfl⟩
    rw [List.mem_filter]
    exact ⟨hmem, rfl⟩
  · obtain ⟨w, hw⟩ := validate_int_fields_ok df field col hcol
    refine ⟨_, hw, ?_⟩
    rw [keys_mk_map]
    intro hin
    obtain ⟨p, hpf, hpi⟩ := List.mem_map.mp hin
    obtain ⟨hpc, hmask⟩ := List.mem_filter.mp hpf
    rw [hall p hpc hpi] at hmask
    simp [Value.isNull, Value.isIntLike] at hmask
  · obtain ⟨w, hw⟩ := validate_string_fields_ok df field col hcol
    refine ⟨_, hw, ?_⟩
    rw [keys_mk_map]
    intro hin
    obtain ⟨p, hpf, hpi⟩ := List.mem_map.mp hin
    obtain ⟨hpc, hmask⟩ := List.mem_filter.mp hpf
    rw [hall p hpc hpi] at hmask
    simp [Value.isNull, Value.isStr] at hmask
  · intro r hr
    rw [validate_country_codes, hcol, exbind_ok] at hr
    by_cases he : ((df.rows.zip col).filter
        (fun rc => !(rc.2.2.isinStr country_list) && !rc.2.2.isNull)).isEmpty
    · rw [if_pos he] at hr
      cases hr
      simp [FTable.keys]
    · rw [if_neg he] at hr
      cases hr

theorem c10_date_check_flags_null_witness :
    ((∃ r, validate_date_format dfNull "f" = Except.ok r ∧ (2 : ℤ) ∈ r.1.keys) ∧
    (∃ r, validate_int_fields dfNull "f" = Except.ok r ∧ (2 : ℤ) ∉ r.1.keys) ∧
    (∃ r, validate_string_fields dfNull "f" = Except.ok r ∧ (2 : ℤ) ∉ r.1.keys) ∧
    (∀ r, validate_country_codes dfNull "f" = Except.ok r → (2 : ℤ) ∉ r.1.keys)) :=
  c10_date_check_flags_null dfNull "f" [(2, Value.null)] 2
    (by decide) (by decide) (by decide)

theorem sum_map_add (f g : ℤ → ℕ) : ∀ ks : List ℤ,
    (ks.map (fun k => f k + g k)).sum = (ks.map f).sum + (ks.map g).sum := by
  intro ks
  induction ks with
  | nil => rfl
  | cons k ks ih =>
    simp only [List.map_cons, List.sum_cons, ih]
    omega

theorem sum_indicator_zero (a : ℤ) : ∀ ks : List ℤ, a ∉ ks →
    (ks.map (fun k => if a = k then 1 else 0)).sum = 0 := by
  intro ks
  induction ks with
  | nil => intro _; rfl
  | cons k ks ih =>
    intro h
    have hak : ¬a = k := fun hc => h (hc ▸ List.mem_cons_self k ks)
    have h2 : a ∉ ks := fun hm => h (List.mem_cons_of_mem k hm)
    simp [hak, ih h2]

theorem sum_indicator_one (a : ℤ) : ∀ ks : List ℤ, ks.Nodup → a ∈ ks →
    (ks.map (fun k => if a = k then 1 else 0)).sum = 1 := by
  intro ks
  induction ks with
  | nil => intro _ h; cases h
  | cons k ks ih =>
    intro hnd hmem
    rcases List.mem_cons.mp hmem with h | h
    · subst h
      have ha : a ∉ ks := (List.nodup_cons.mp hnd).1
      simp [sum_indicator_zero a ks ha]
    · have hak : ¬a = k := by
        intro hc
        subst hc
        exact (List.nodup_cons.mp hnd).1 h
      simp [hak, ih (List.nodup_cons.mp hnd).2 h]

theorem keyCount_cons (p : ℤ × List Cell) (rows : List (ℤ × List Cell)) (k : ℤ) :
    keyCount (p :: rows) k = (if p.1 = k then 1 else 0) + keyCount rows k := by
  by_cases h : p.1 = k
  · simp [keyCount, List.filter_cons, h]
    omega
  · simp [keyCount, List.filter_cons, h]

theorem sum_keyCount : ∀ (rows : List (ℤ × List Cell)) (ks : List ℤ), ks.Nodup →
    (∀ p ∈ rows, p.1 ∈ ks) → (ks.map (keyCount rows)).sum = rows.length := by
  intro rows
  induction rows with
  | nil =>
    intro ks _ _
    have hz : ks.map (keyCount []) = ks.map (fun _ => 0) :=
      List.map_congr_left (fun k _ => by simp [keyCount])
    rw [hz]
    simp
  | cons p rows ih =>
    intro ks hnd hcov
    have h1 : ks.map (keyCount (p :: rows)) =
        ks.map (fun k => (if p.1 = k then 1 else 0) + keyCount rows k) :=
      List.map_congr_left (fun k _ => keyCount_cons p rows k)
    rw [h1, sum_map_add, sum_indicator_one p.1 ks hnd (hcov p (List.mem_cons_self p rows)),
      ih ks hnd (fun q hq => hcov q (List.mem_cons_of_mem p hq))]
    simp [Nat.add_comm]

theorem filter_key_eq_nil (rows : List (ℤ × List Cell)) (k : ℤ)
    (h : k ∉ rows.map (fun p => p.1)) :
    rows.filter (fun p => decide (p.1 = k)) = [] := by
  rw [List.filter_eq_nil_iff]
  intro p hp
  simp only [decide_eq_true_eq]
  intro hc
  exact h (hc ▸ List.mem_map_of_mem (fun p => p.1) hp)

theorem filter_key_ne_nil (rows : List (ℤ × List Cell)) (k : ℤ)
    (h : k ∈ rows.map (fun p => p.1)) :
    (rows.filter (fun p => decide (p.1 = k))).map (fun p => p.2) ≠ [] := by
  obtain ⟨p, hp, hpk⟩ := List.mem_map.mp h
  intro hc
  have hmem : p ∈ rows.filter (fun p => decide (p.1 = k)) :=
    List.mem_filter.mpr ⟨hp, by simp [hpk]⟩
  rw [List.map_eq_nil_iff] at hc
  rw [hc] at hmem
  cases hmem

theorem flatMap_singleton_map {α β : Type} (l : List α) (g : α → β) :
    (l.flatMap fun a => [g a]) = l.map g := by
  induction l with
  | nil => rfl
  | cons a l ih => simp [ih]

theorem mem_mergeKeys (left right : FTable) (k : ℤ) :
    k ∈ mergeKeys left right ↔ k ∈ left.keys ∨ k ∈ right.keys := by
  unfold mergeKeys
  rw [(List.perm_insertionSort _ _).mem_iff, List.mem_dedup, List.mem_append]
  exact Iff.rfl

theorem nodup_mergeKeys (left right : FTable) : (mergeKeys left right).Nodup :=
  ((List.perm_insertionSort _ _).symm).nodup (List.nodup_dedup _)

theorem mergeRows_left (left right : FTable) (k : ℤ)
    (hkl : k ∈ left.keys) (hkr : k ∉ right.keys) :
    mergeRows left right k =
      ((left.rows.filter (fun p => decide (p.1 = k))).map (fun p => p.2)).map
        (fun a => (k, a ++ nullCells right.cols)) := by
  unfold mergeRows
  have hrs : right.rows.filter (fun p => decide (p.1 = k)) = [] :=
    filter_key_eq_nil _ _ hkr
  have hls : ((left.rows.filter (fun p => decide (p.1 = k))).map (fun p => p.2)) ≠ [] :=
    filter_key_ne_nil _ _ hkl
  rw [hrs]
  simp only [List.map_nil, List.isEmpty_nil, if_true, List.isEmpty_iff, if_neg hls]
  exact flatMap_singleton_map _ _

theorem mergeRows_right (left right : FTable) (k : ℤ)
    (hkl : k ∉ left.keys) (hkr : k ∈ right.keys) :
    mergeRows left right k =
      ((right.rows.filter (fun p => decide (p.1 = k))).map (fun p => p.2)).map
        (fun b => (k, nullCells left.cols ++ b)) := by
  unfold mergeRows
  have hls : left.rows.filter (fun p => decide (p.1 = k)) = [] :=
    filter_key_eq_nil _ _ hkl
  have hrs : ((right.rows.filter (fun p => decide (p.1 = k))).map (fun p => p.2)) ≠ [] :=
    filter_key_ne_nil _ _ hkr
  rw [hls]
  simp only [List.map_nil, List.isEmpty_nil, if_true, List.isEmpty_iff, if_neg hrs]
  simp

theorem mergeRows_length (left right : FTable)
    (hd : ∀ k ∈ left.keys, k ∉ right.keys) :
    ∀ k ∈ mergeKeys left right,
      (mergeRows left right k).length = keyCount left.rows k + keyCount right.rows k := by
  intro k hk
  rcases (mem_mergeKeys left right k).mp hk with hkl | hkr
  · have hkr' := hd k hkl
    have hzero : keyCount right.rows k = 0 := by
      rw [keyCount, filter_key_eq_nil _ _ hkr']
      rfl
    rw [mergeRows_left left right k hkl hkr', hzero]
    simp [keyCount]
  · by_cases hkl : k ∈ left.keys
    · have hkr' := hd k hkl
      have hzero : keyCount right.rows k = 0 := by
        rw [keyCount, filter_key_eq_nil _ _ hkr']
        rfl
      rw [mergeRows_left left right k hkl hkr', hzero]
      simp [keyCount]
    · have hzero : keyCount left.rows k = 0 := by
        rw [keyCount, filter_key_eq_nil _ _ hkl]
        rfl
      rw [mergeRows_right left right k hkl hkr, hzero]
      simp [keyCount]

/-- C8: merging two finding tables with disjoint row-identity sets (each
left row's cells matching the left column count) yields a report whose row
count is the sum of the two row counts, and in each merged row the cells of
the side that does not contain that row identity are all null. -/
theorem c8_merge_disjoint (l r : FTable)
    (hd : ∀ k ∈ l.keys, k ∉ r.keys)
    (hl : ∀ p ∈ l.rows, p.2.length = l.cols.length) :
    (mergeOuter l r).rows.length = l.rows.length + r.rows.length ∧
    ∀ p ∈ (mergeOuter l r).rows,
      (p.1 ∈ l.keys → p.2.drop l.cols.length = nullCells r.cols) ∧
      (p.1 ∈ r.keys → p.2.take l.cols.length = nullCells l.cols) := by
  constructor
  · show ((mergeKeys l r).flatMap (mergeRows l r)).length = _
    rw [List.length_flatMap]
    have h1 : (mergeKeys l r).map (List.length ∘ mergeRows l r) =
        (mergeKeys l r).map (fun k => keyCount l.rows k + keyCount r.rows k) :=
      List.map_congr_left (fun k hk => mergeRows_length l r hd k hk)
    rw [h1, sum_map_add]
    have hcovl : ∀ p ∈ l.rows, p.1 ∈ mergeKeys l r := by
      intro p hp
      exact (mem_mergeKeys l r p.1).mpr (Or.inl (List.mem_map_of_mem (fun p => p.1) hp))
    have hcovr : ∀ p ∈ r.rows, p.1 ∈ mergeKeys l r := by
      intro p hp
      exact (mem_mergeKeys l r p.1).mpr (Or.inr (List.mem_map_of_mem (fun p => p.1) hp))
    rw [sum_keyCount l.rows _ (nodup_mergeKeys l r) hcovl,
      sum_keyCount r.rows _ (nodup_mergeKeys l r) hcovr]
  · intro p hp
    have hp' : p ∈ (mergeKeys l r).flatMap (mergeRows l r) := hp
    obtain ⟨k, hk, hpk⟩ := List.mem_flatMap.mp hp'
    rcases (mem_mergeKeys l r k).mp hk with hkl | hkr
    · have hkr' := hd k hkl
      rw [mergeRows_left l r k hkl hkr'] at hpk
      obtain ⟨a, ha, hpa⟩ := List.mem_map.mp hpk
      obtain ⟨q, hq, hqa⟩ := List.mem_map.mp ha
      have hq' : q ∈ l.rows := (List.mem_filter.mp hq).1
      have hlen : a.length = l.cols.length := by
        rw [← hqa]
        exact hl q hq'
      constructor
      · intro _
        rw [← hpa]
        show (a ++ nullCells r.cols).drop l.cols.length = nullCells r.cols
        rw [← hlen, List.drop_left]
      · intro hpr
        exfalso
        rw [← hpa] at hpr
        exact hkr' hpr
    · by_cases hkl : k ∈ l.keys
      · have hkr' := hd k hkl
        rw [mergeRows_left l r k hkl hkr'] at hpk
        obtain ⟨a, ha, hpa⟩ := List.mem_map.mp hpk
        obtain ⟨q, hq, hqa⟩ := List.mem_map.mp ha
        have hq' : q ∈ l.rows := (List.mem_filter.mp hq).1
        have hlen : a.length = l.cols.length := by
          rw [← hqa]
          exact hl q hq'
        constructor
        · intro _
          rw [← hpa]
          show (a ++ nullCells r.cols).drop l.cols.length = nullCells r.cols
          rw [← hlen, List.drop_left]
        · intro hpr
          exfalso
          rw [← hpa] at hpr
          exact hkr' hpr
      · rw [mergeRows_right l r k hkl hkr] at hpk
        obtain ⟨b, hb, hpb⟩ := List.mem_map.mp hpk
        constructor
        · intro hplk
          exfalso
          rw [← hpb] at hplk
          exact hkl hplk
        · intro _
          rw [← hpb]
          show (nullCells l.cols ++ b).take l.cols.length = nullCells l.cols
          have hlen : (nullCells l.cols).length = l.cols.length := by simp [nullCells]
          rw [← hlen, List.take_left]

theorem c8_merge_disjoint_witness :
    (mergeOuter ftA ftB).rows.length = ftA.rows.length + ftB.rows.length ∧
    ∀ p ∈ (mergeOuter ftA ftB).rows,
      (p.1 ∈ ftA.keys → p.2.drop ftA.cols.length = nullCells ftB.cols) ∧
      (p.1 ∈ ftB.keys → p.2.take ftA.cols.length = nullCells ftA.cols) :=
  c8_merge_disjoint ftA ftB (by decide) (by decide)

end FileProc
